import Mathlib

set_option maxHeartbeats 1000000

/-!
A shallow embedding of `src/config.rs` from the `ra-multiplex` repository:
the configuration schema with its custom field deserializers, the untagged
`Address` enum, the `Config` defaults, and the logging bootstrap
(backend dispatch, file rotation, once-cell caching, filter resolution).

The configuration file is TOML; we model the source values the serde
deserializers can observe with the inductive `Toml`.  TOML integers are
64-bit signed, so `Toml.int` carries an `Int`; floats never influence any
modelled behaviour beyond "not an integer / not a bool", so `Toml.float`
carries no payload.
-/

/-- Equality of `Except` values is decidable when it is on both components;
used only to let `decide` evaluate the embedded deserializers. -/
instance {ε α : Type} [DecidableEq ε] [DecidableEq α] : DecidableEq (Except ε α)
  | .error e, .error f =>
    if h : e = f then .isTrue (by rw [h])
    else .isFalse (by intro hh; cases hh; exact h rfl)
  | .error _, .ok _ => .isFalse (by intro h; cases h)
  | .ok _, .error _ => .isFalse (by intro h; cases h)
  | .ok x, .ok y =>
    if h : x = y then .isTrue (by rw [h])
    else .isFalse (by intro hh; cases hh; exact h rfl)

/-- A structured-text (TOML) source value as observed by the deserializer. -/
inductive Toml where
  | bool (b : Bool)
  | int (n : Int)
  | float
  | str (s : String)
  | array (xs : List Toml)
  | table (kvs : List (String × Toml))

/-- Mirror of serde's `Unexpected`: a description of the value actually found. -/
inductive Unexpected where
  | bool (b : Bool)
  | unsigned (n : Nat)
  | signed (n : Int)
  | str (s : String)
  | other (s : String)
deriving DecidableEq

/-- Mirror of the serde error constructors used by `config.rs`:
`Error::invalid_value`, `Error::invalid_type`, `Error::custom`, and the
errors produced by `deny_unknown_fields` struct deserialization. -/
inductive DeError where
  | invalidValue (unexp : Unexpected) (expected : String)
  | invalidType (unexp : Unexpected) (expected : String)
  | custom (msg : String)
  | unknownField (field : String)
  | duplicateField (field : String)
deriving DecidableEq

/-- How serde's `Unexpected` describes a TOML value. -/
def tomlUnexpected : Toml → Unexpected
  | .bool b => .bool b
  | .int n => .signed n
  | .float => .other "floating point"
  | .str s => .str s
  | .array _ => .other "array"
  | .table _ => .other "map"

/-- `bool::deserialize` on a TOML value: succeeds exactly on booleans. -/
def deBool (v : Toml) : Except DeError Bool :=
  match v with
  | .bool b => .ok b
  | _ => .error (.invalidType (tomlUnexpected v) "a boolean")

/-- `u32::deserialize` on a TOML value: TOML integers are `i64`; serde's
integer impls convert with a range check, rejecting values outside
`[0, 2^32)` with `invalid_value`. -/
def deU32 (v : Toml) : Except DeError Nat :=
  match v with
  | .int n =>
    if 0 ≤ n ∧ n < 4294967296 then .ok n.toNat
    else .error (.invalidValue (.signed n) "u32")
  | _ => .error (.invalidType (tomlUnexpected v) "u32")

/-- `u16::deserialize` on a TOML value, with the `[0, 2^16)` range check. -/
def deU16 (v : Toml) : Except DeError Nat :=
  match v with
  | .int n =>
    if 0 ≤ n ∧ n < 65536 then .ok n.toNat
    else .error (.invalidValue (.signed n) "u16")
  | _ => .error (.invalidType (tomlUnexpected v) "u16")

/-- `String::deserialize` on a TOML value. -/
def deString (v : Toml) : Except DeError String :=
  match v with
  | .str s => .ok s
  | _ => .error (.invalidType (tomlUnexpected v) "a string")

/-- The helper enum of `de::instance_timeout`:
`#[serde(untagged)] enum OneOf { Bool(bool), U32(u32) }`. -/
inductive OneOf where
  | Bool (b : Bool)
  | U32 (n : Nat)
deriving DecidableEq

/-- Untagged deserialization of `OneOf`: serde tries the variants in
declaration order (`Bool` first, then `U32`); if no variant matches it
reports that the data matched no variant. -/
def deOneOf (v : Toml) : Except DeError OneOf :=
  match deBool v with
  | .ok b => .ok (.Bool b)
  | .error _ =>
    match deU32 v with
    | .ok n => .ok (.U32 n)
    | .error _ => .error (.custom "data did not match any variant of untagged enum OneOf")

/-- `de::instance_timeout` (config.rs lines 52-74): parse either
`bool(false)` or a `u32`.  An integer yields `Some`, `false` yields `None`,
`true` is rejected with `invalid_value` expecting
"a non-negative integer or false", and anything else is rejected with the
custom message "invalid type: expected a non-negative integer or false". -/
def de_instance_timeout (v : Toml) : Except DeError (Option Nat) :=
  match deOneOf v with
  | .ok (.U32 value) => .ok (some value)
  | .ok (.Bool false) => .ok none
  | .ok (.Bool true) =>
    .error (.invalidValue (.bool true) "a non-negative integer or false")
  | .error _ =>
    .error (.custom "invalid type: expected a non-negative integer or false")

/-- `de::gc_interval` (config.rs lines 77-88): deserialize a `u32` and
reject `0` with `invalid_value` expecting "an integer 1 or greater". -/
def de_gc_interval (v : Toml) : Except DeError Nat :=
  match deU32 v with
  | .error e => .error e
  | .ok 0 => .error (.invalidValue (.unsigned 0) "an integer 1 or greater")
  | .ok n => .ok n

/-!
## IP addresses

`Address::Tcp` carries a `std::net::IpAddr`, which serde deserializes (in a
human-readable format such as TOML) from a string via `IpAddr::from_str`.
The definitions below embed the parser from Rust's `core::net::parser`:
`read_number` (with max-digit, leading-zero and overflow checks; overflow of
the checked `u8`/`u16` arithmetic is equivalently a final-value bound since
appending digits only grows the value), `read_ipv4_addr`, `read_groups` /
`read_ipv6_addr` (with `::` compression and trailing embedded IPv4), and the
full-consumption check of `parse_with`.
-/

/-- An IP address: four octets, or eight 16-bit groups. -/
inductive IpAddr where
  | V4 (a b c d : Nat)
  | V6 (groups : List Nat)
deriving DecidableEq

/-- `char::to_digit(radix)`: the value of a digit character, if in range. -/
def charDigit? (radix : Nat) (c : Char) : Option Nat :=
  let d :=
    if 48 ≤ c.toNat ∧ c.toNat ≤ 57 then some (c.toNat - 48)
    else if 97 ≤ c.toNat ∧ c.toNat ≤ 122 then some (c.toNat - 97 + 10)
    else if 65 ≤ c.toNat ∧ c.toNat ≤ 90 then some (c.toNat - 65 + 10)
    else none
  match d with
  | some v => if v < radix then some v else none
  | none => none

/-- `Parser::read_number(radix, Some(maxDigits), allowZeroPrefix)` into an
integer type with maximum value `maxVal`: greedily read digits, fail on no
digits, on more than `maxDigits` digits, on a disallowed leading zero, or on
exceeding `maxVal` (the checked arithmetic of the target type). -/
def readNum (radix maxDigits maxVal : Nat) (allowZeroPrefix : Bool)
    (cs : List Char) : Option (Nat × List Char) :=
  let digits := cs.takeWhile (fun c => (charDigit? radix c).isSome)
  let rest := cs.dropWhile (fun c => (charDigit? radix c).isSome)
  if digits.length = 0 then none
  else if maxDigits < digits.length then none
  else if !allowZeroPrefix && digits.head? = some '0' && decide (1 < digits.length) then none
  else
    let val := digits.foldl (fun acc c => acc * radix + (charDigit? radix c).getD 0) 0
    if maxVal < val then none else some (val, rest)

/-- `Parser::read_given_char`: consume exactly the given character. -/
def expectChar (c : Char) (cs : List Char) : Option (List Char) :=
  match cs with
  | x :: rest => if x = c then some rest else none
  | [] => none

/-- `Parser::read_ipv4_addr`: four `.`-separated decimal octets, each at
most three digits, no leading zeros, each at most 255. -/
def readIpv4 (cs : List Char) : Option ((Nat × Nat × Nat × Nat) × List Char) := do
  let (a, cs) ← readNum 10 3 255 false cs
  let cs ← expectChar '.' cs
  let (b, cs) ← readNum 10 3 255 false cs
  let cs ← expectChar '.' cs
  let (c, cs) ← readNum 10 3 255 false cs
  let cs ← expectChar '.' cs
  let (d, cs) ← readNum 10 3 255 false cs
  some ((a, b, c, d), cs)

/-- The `read_groups` helper of `Parser::read_ipv6_addr`: read up to
`fuel = limit - i` further `:`-separated 16-bit hex groups starting at group
index `i`, allowing a trailing embedded IPv4 address when at least two slots
remain.  Returns the groups read, whether a trailing IPv4 was read, and the
remaining input. -/
def readGroupsAux : Nat → Nat → Nat → List Nat → List Char →
    List Nat × Bool × List Char
  | 0, _, _, acc, cs => (acc, false, cs)
  | fuel + 1, i, limit, acc, cs =>
    let sep : List Char → Option (List Char) := fun l =>
      if 0 < i then expectChar ':' l else some l
    let v4 : Option ((Nat × Nat × Nat × Nat) × List Char) :=
      if i + 1 < limit then
        match sep cs with
        | some cs1 => readIpv4 cs1
        | none => none
      else none
    match v4 with
    | some ((a, b, c, d), rest) =>
      (acc ++ [a * 256 + b, c * 256 + d], true, rest)
    | none =>
      match sep cs with
      | some cs1 =>
        match readNum 16 4 65535 true cs1 with
        | some (g, rest) => readGroupsAux fuel (i + 1) limit (acc ++ [g]) rest
        | none => (acc, false, cs)
      | none => (acc, false, cs)

/-- `Parser::read_ipv6_addr`: read head groups; if fewer than eight and no
embedded IPv4 was read, require `::` and read tail groups, filling the gap
with zero groups. -/
def readIpv6 (cs : List Char) : Option (List Nat × List Char) :=
  let r := readGroupsAux 8 0 8 [] cs
  if r.1.length = 8 then some (r.1, r.2.2)
  else if r.2.1 then none
  else
    match expectChar ':' r.2.2 with
    | none => none
    | some cs2 =>
      match expectChar ':' cs2 with
      | none => none
      | some cs3 =>
        let limit := 8 - (r.1.length + 1)
        let t := readGroupsAux limit 0 limit [] cs3
        some (r.1 ++ List.replicate (8 - r.1.length - t.1.length) 0 ++ t.1, t.2.2)

/-- `IpAddr::from_str`: try IPv4 then IPv6 (`read_ip_addr`), and require the
whole string to be consumed (`parse_with`). -/
def parseIpAddr (s : String) : Option IpAddr :=
  match readIpv4 s.data with
  | some ((a, b, c, d), rest) =>
    if rest.isEmpty then some (.V4 a b c d) else none
  | none =>
    match readIpv6 s.data with
    | some (gs, rest) => if rest.isEmpty then some (.V6 gs) else none
    | none => none

/-!
## The untagged `Address` enum

`#[serde(untagged)] enum Address { Tcp(IpAddr, u16), Unix(PathBuf) }`
(config.rs lines 91-97).  The `Unix` variant exists only on platforms of the
`unix` target family; we model the platform condition as the boolean
parameter `unixSupport`.  Untagged deserialization buffers the value and
tries each variant in declaration order; the first that deserializes wins.
-/

/-- The in-memory `Address` value.  `PathBuf` is a string at this level. -/
inductive Address where
  | Tcp (ip : IpAddr) (port : Nat)
  | Unix (path : String)
deriving DecidableEq

/-- `IpAddr::deserialize` in a human-readable format: expect a string and
parse it with `IpAddr::from_str`. -/
def deIpAddrT (v : Toml) : Except DeError IpAddr :=
  match v with
  | .str s =>
    match parseIpAddr s with
    | some ip => .ok ip
    | none => .error (.invalidValue (.str s) "IP address")
  | _ => .error (.invalidType (tomlUnexpected v) "IP address")

/-- The `Tcp(IpAddr, u16)` variant deserialized as a two-element sequence. -/
def deTcp (v : Toml) : Except DeError (IpAddr × Nat) :=
  match v with
  | .array [a, b] =>
    match deIpAddrT a with
    | .error e => .error e
    | .ok ip =>
      match deU16 b with
      | .error e => .error e
      | .ok p => .ok (ip, p)
  | _ => .error (.invalidType (tomlUnexpected v) "tuple variant Address.Tcp")

/-- `PathBuf::deserialize`: any string is a valid path. -/
def deUnixPath (v : Toml) : Except DeError String :=
  match v with
  | .str s => .ok s
  | _ => .error (.invalidType (tomlUnexpected v) "path string")

/-- Untagged deserialization of `Address`: try `Tcp` first, then (when the
platform has local-socket support) `Unix`; if no variant matches, fail with
serde's untagged-enum type error. -/
def de_Address (unixSupport : Bool) (v : Toml) : Except DeError Address :=
  match deTcp v with
  | .ok (ip, p) => .ok (.Tcp ip p)
  | .error _ =>
    if unixSupport then
      match deUnixPath v with
      | .ok s => .ok (.Unix s)
      | .error _ =>
        .error (.custom "data did not match any variant of untagged enum Address")
    else .error (.custom "data did not match any variant of untagged enum Address")

/-- Untagged serialization of `Address`: each variant writes its content
directly — a two-element sequence for `Tcp` (the `IpAddr` as its `Display`
string, whose rendering `ipDisplay` belongs to the standard library and is
taken as a parameter) and the bare path string for `Unix` — with no
discriminator wrapper. -/
def ser_Address (ipDisplay : IpAddr → String) : Address → Toml
  | .Tcp ip p => .array [.str (ipDisplay ip), .int p]
  | .Unix s => .str s

/-- Modelled from the spec: the network shape of an `AddressSpec` value,
"an IP address plus a 16-bit port", i.e. a two-element sequence of an
IP-address string and a port integer fitting 16 bits.  Stated from the
spec's words, to be compared with the source-derived `de_Address`. -/
def networkShape? (v : Toml) : Option (IpAddr × Nat) :=
  match v with
  | .array [.str s, .int n] =>
    match parseIpAddr s with
    | some ip => if 0 ≤ n ∧ n < 65536 then some (ip, n.toNat) else none
    | none => none
  | _ => none

/-- Modelled from the spec: the local-socket shape, a bare filesystem path
string. -/
def localShape? (v : Toml) : Option String :=
  match v with
  | .str s => some s
  | _ => none

/-!
## The `Config` struct and its defaults

`#[serde(deny_unknown_fields)] struct Config` (config.rs lines 99-124) with
the `mod default` field defaults (lines 13-46) and `impl Default for Config`
(lines 141-153).  `BTreeSet<String>` is modelled as a strictly sorted list.
-/

/-- The validated configuration record. -/
structure Config where
  instance_timeout : Option Nat
  gc_interval : Nat
  listen : Address
  connect : Address
  log_filters : String
  log_mode : String
  pass_environment : List String
deriving DecidableEq

namespace default

/-- `default::instance_timeout`: 5 minutes. -/
def instance_timeout : Option Nat := some (5 * 60)

/-- `default::gc_interval`: 10 seconds. -/
def gc_interval : Nat := 10

/-- `default::listen`: localhost and some random unprivileged port. -/
def listen : Address := .Tcp (.V4 127 0 0 1) 27631

/-- `default::connect`: the same as `listen`. -/
def connect : Address := listen

/-- `default::log_filters`. -/
def log_filters : String := "info"

/-- `default::log_mode`. -/
def log_mode : String := "terminal"

/-- `default::pass_environment`: the empty set. -/
def pass_environment : List String := []

end default

/-- `impl Default for Config`: every field takes its `default::` value. -/
def Config.default : Config where
  instance_timeout := default.instance_timeout
  gc_interval := default.gc_interval
  listen := default.listen
  connect := default.connect
  log_filters := default.log_filters
  log_mode := default.log_mode
  pass_environment := default.pass_environment

/-- Insertion into a `BTreeSet<String>` modelled as a sorted
duplicate-free list. -/
def insertSorted (s : String) : List String → List String
  | [] => [s]
  | x :: xs =>
    if s = x then x :: xs
    else if s < x then s :: x :: xs
    else x :: insertSorted s xs

/-- `BTreeSet<String>::deserialize` element loop: every element must be a
string; elements are collected into the set. -/
def deStringSet : List Toml → List String → Except DeError (List String)
  | [], acc => .ok acc
  | x :: xs, acc =>
    match x with
    | .str s => deStringSet xs (insertSorted s acc)
    | _ => .error (.invalidType (tomlUnexpected x) "a string")

/-- `BTreeSet<String>::deserialize`: a sequence of strings. -/
def dePassEnvironment (v : Toml) : Except DeError (List String) :=
  match v with
  | .array xs => deStringSet xs []
  | _ => .error (.invalidType (tomlUnexpected v) "a sequence")

/-- The seven recognized field names of `Config`, in declaration order. -/
def fieldNames : List String :=
  ["instance_timeout", "gc_interval", "listen", "connect",
   "log_filters", "log_mode", "pass_environment"]

/-- The partially filled record maintained by serde's generated map visitor:
one `Option` slot per field, used for the duplicate-field check. -/
structure PartialConfig where
  instance_timeout : Option (Option Nat)
  gc_interval : Option Nat
  listen : Option Address
  connect : Option Address
  log_filters : Option String
  log_mode : Option String
  pass_environment : Option (List String)

/-- The all-unset partial record the visitor starts from. -/
def PartialConfig.empty : PartialConfig :=
  ⟨none, none, none, none, none, none, none⟩

/-- Fill every still-absent field with its `default::` value
(serde's `#[serde(default = "...")]` at the end of the map). -/
def finishConfig (p : PartialConfig) : Config where
  instance_timeout := p.instance_timeout.getD default.instance_timeout
  gc_interval := p.gc_interval.getD default.gc_interval
  listen := p.listen.getD default.listen
  connect := p.connect.getD default.connect
  log_filters := p.log_filters.getD default.log_filters
  log_mode := p.log_mode.getD default.log_mode
  pass_environment := p.pass_environment.getD default.pass_environment

/-- One step of serde's map visitor with `deny_unknown_fields`: match the
key against the seven field names; a recognized key is checked for
duplication and its value deserialized with the field's deserializer; an
unrecognized key aborts with `unknown_field`, naming the key. -/
def applyField (u : Bool) (p : PartialConfig) (k : String) (v : Toml) :
    Except DeError PartialConfig :=
  if k = "instance_timeout" then
    if p.instance_timeout.isSome then .error (.duplicateField k)
    else
      match de_instance_timeout v with
      | .error e => .error e
      | .ok x => .ok { p with instance_timeout := some x }
  else if k = "gc_interval" then
    if p.gc_interval.isSome then .error (.duplicateField k)
    else
      match de_gc_interval v with
      | .error e => .error e
      | .ok x => .ok { p with gc_interval := some x }
  else if k = "listen" then
    if p.listen.isSome then .error (.duplicateField k)
    else
      match de_Address u v with
      | .error e => .error e
      | .ok x => .ok { p with listen := some x }
  else if k = "connect" then
    if p.connect.isSome then .error (.duplicateField k)
    else
      match de_Address u v with
      | .error e => .error e
      | .ok x => .ok { p with connect := some x }
  else if k = "log_filters" then
    if p.log_filters.isSome then .error (.duplicateField k)
    else
      match deString v with
      | .error e => .error e
      | .ok x => .ok { p with log_filters := some x }
  else if k = "log_mode" then
    if p.log_mode.isSome then .error (.duplicateField k)
    else
      match deString v with
      | .error e => .error e
      | .ok x => .ok { p with log_mode := some x }
  else if k = "pass_environment" then
    if p.pass_environment.isSome then .error (.duplicateField k)
    else
      match dePassEnvironment v with
      | .error e => .error e
      | .ok x => .ok { p with pass_environment := some x }
  else .error (.unknownField k)

/-- serde's generated map visitor: process the document's key-value pairs in
order, then fill the defaults. -/
def deConfigLoop (u : Bool) : List (String × Toml) → PartialConfig →
    Except DeError Config
  | [], p => .ok (finishConfig p)
  | (k, v) :: rest, p =>
    match applyField u p k v with
    | .error e => .error e
    | .ok p' => deConfigLoop u rest p'

/-- `Config::deserialize` of a top-level TOML table, on a platform with
(`u = true`) or without (`u = false`) local-socket support. -/
def de_Config (u : Bool) (kvs : List (String × Toml)) : Except DeError Config :=
  deConfigLoop u kvs PartialConfig.empty

/-- Whether the field deserializer for recognized key `k` accepts `v`
(used to phrase "all other fields are valid"). -/
def fieldOk (u : Bool) (k : String) (v : Toml) : Bool :=
  if k = "instance_timeout" then (de_instance_timeout v).toBool
  else if k = "gc_interval" then (de_gc_interval v).toBool
  else if k = "listen" then (de_Address u v).toBool
  else if k = "connect" then (de_Address u v).toBool
  else if k = "log_filters" then (deString v).toBool
  else if k = "log_mode" then (deString v).toBool
  else if k = "pass_environment" then (dePassEnvironment v).toBool
  else true

/-- Whether the slot for key `k` is still unset in the partial record. -/
def unsetIn (p : PartialConfig) (k : String) : Bool :=
  if k = "instance_timeout" then p.instance_timeout.isNone
  else if k = "gc_interval" then p.gc_interval.isNone
  else if k = "listen" then p.listen.isNone
  else if k = "connect" then p.connect.isNone
  else if k = "log_filters" then p.log_filters.isNone
  else if k = "log_mode" then p.log_mode.isNone
  else if k = "pass_environment" then p.pass_environment.isNone
  else true

/-!
## The logging bootstrap

`Config::init_logger`, `init_terminal_logger`, `init_file_logger` and
`init_file_writter` (config.rs lines 173-255).  Filesystem effects are
modelled explicitly: the metadata the file backend observes for the fixed
log file, and the trace of filesystem actions it performs.  The
`tracing_subscriber::EnvFilter` grammar belongs to an external crate; a
filter expression is modelled as its directive string and validity as the
parameter `valid`.  The `RUST_LOG` environment variable is the parameter
`envVar` (`none` when unset).
-/

/-- What `tokio::fs::metadata` reports for the log file when it succeeds. -/
structure Metadata where
  is_file : Bool
  len : Nat
deriving DecidableEq

/-- The filesystem actions `init_file_writter` can perform, in order. -/
inductive FsAction where
  | removeFile
  | createDirAll
  | openAppend
deriving DecidableEq

/-- The cached `Log` singleton: the cloneable non-blocking writer and the
worker shutdown guard (both opaque at this level). -/
structure Log where
  non_blocking : Unit
  worker_guard : Unit

/-- `Config::init_file_writter` (lines 234-255): if metadata resolves, the
target is a file and its size is at least 1048576 bytes, delete it; then
create the parent directories and open the fixed file name for append
(`tracing_appender::rolling::never`), wrapping it in the non-blocking
writer.  Returns the `Log` and the trace of filesystem actions. -/
def init_file_writter (meta : Option Metadata) : Log × List FsAction :=
  let rotate : Bool :=
    match meta with
    | some a => a.is_file && decide (1048576 ≤ a.len)
    | none => false
  (⟨(), ()⟩, (if rotate then [.removeFile] else []) ++ [.createDirAll, .openAppend])

/-- `EnvFilter::try_from_default_env`: succeeds when the environment
variable is set to a valid filter expression. -/
def tryFromDefaultEnv (valid : String → Bool) (envVar : Option String) :
    Except Unit String :=
  match envVar with
  | some e => if valid e then .ok e else .error ()
  | none => .error ()

/-- `EnvFilter::try_new`: succeeds when the expression is valid. -/
def tryNew (valid : String → Bool) (s : String) : Except Unit String :=
  if valid s then .ok s else .error ()

/-- The filter expression both backends install:
`try_from_default_env().or_else(try_new(log_filters)).unwrap_or_else(new "info")`
(config.rs lines 189-191 and 223-225). -/
def resolveFilter (valid : String → Bool) (envVar : Option String)
    (log_filters : String) : String :=
  match tryFromDefaultEnv valid envVar with
  | .ok f => f
  | .error _ =>
    match tryNew valid log_filters with
    | .ok f => f
    | .error _ => "info"

/-- The observable outcome of `init_terminal_logger`: the installed filter
(the stderr writer, format flags and global-registry installation are side
effects outside the embedding). -/
structure TerminalLogger where
  filter : String

/-- `Config::init_terminal_logger` (lines 180-198). -/
def init_terminal_logger (valid : String → Bool) (envVar : Option String)
    (c : Config) : TerminalLogger :=
  { filter := resolveFilter valid envVar c.log_filters }

/-- The observable outcome of `init_file_logger`: the state of the
`FILE_LOGGER` once-cell after the call, the filesystem actions performed by
this call, and the installed filter. -/
structure FileLoggerResult where
  cell : Option Log
  actions : List FsAction
  filter : String

/-- `Config::init_file_logger` (lines 200-232):
`FILE_LOGGER.get_or_try_init(init_file_writter)` runs the writer
initialization only when the once-cell is still empty; afterwards the
cached writer is used and the filter installed. -/
def init_file_logger (valid : String → Bool) (envVar : Option String)
    (c : Config) (cell : Option Log) (meta : Option Metadata) : FileLoggerResult :=
  match cell with
  | some log =>
    { cell := some log, actions := [],
      filter := resolveFilter valid envVar c.log_filters }
  | none =>
    let r := init_file_writter meta
    { cell := some r.1, actions := r.2,
      filter := resolveFilter valid envVar c.log_filters }

/-- The two logging backends. -/
inductive Backend where
  | file
  | terminal
deriving DecidableEq

/-- The dispatch of `Config::init_logger` (lines 173-178):
`match self.log_mode.as_str() { "file" => ..., "terminal" | _ => ... }`. -/
def init_logger_backend (c : Config) : Backend :=
  match c.log_mode with
  | "file" => .file
  | _ => .terminal

/-!
## Theorems
-/

example : de_instance_timeout (.int 42) = .ok (some 42) := by decide
example : de_instance_timeout (.bool false) = .ok none := by decide
example : parseIpAddr "127.0.0.1" = some (.V4 127 0 0 1) := by decide
example : parseIpAddr "127.0.0.1:27631" = none := by decide
example : parseIpAddr "256.0.0.1" = none := by decide
example : parseIpAddr "01.0.0.1" = none := by decide
example : parseIpAddr "::1" = some (.V6 [0, 0, 0, 0, 0, 0, 0, 1]) := by decide
example : parseIpAddr "::ffff:127.0.0.1" =
    some (.V6 [0, 0, 0, 0, 0, 65535, 32512, 1]) := by decide
example : parseIpAddr "1:2:3:4:5:6:7:8" =
    some (.V6 [1, 2, 3, 4, 5, 6, 7, 8]) := by decide
example : parseIpAddr "fe80::" = some (.V6 [65152, 0, 0, 0, 0, 0, 0, 0]) := by decide
example : parseIpAddr "not an ip" = none := by decide
example : de_Address true (.array [.str "127.0.0.1", .int 27631]) =
    .ok (.Tcp (.V4 127 0 0 1) 27631) := by decide
example : de_Address false (.str "/tmp/ra.sock") =
    .error (.custom "data did not match any variant of untagged enum Address") := by decide
example : de_Config true [] = .ok Config.default := rfl
example : de_Config true [("bogus", .int 3)] = .error (.unknownField "bogus") := by decide

/-- C1 (amended): for the `instance_timeout` field, a non-negative integer
`n < 2^32` deserializes to the present timeout `Some n`; the literal `false`
deserializes to `None`; the literal `true` is rejected with an
`invalid_value` error expecting "a non-negative integer or false"; and a
value of any other type — as well as an integer outside `[0, 2^32)`, which
is what the counterexample forces the amendment to add — is rejected with
the custom error "invalid type: expected a non-negative integer or false",
carrying the same expected-shape phrase. -/
theorem instance_timeout_field_rule (n : Int) (v : Toml) :
    (0 ≤ n → n < 4294967296 → de_instance_timeout (.int n) = .ok (some n.toNat))
  ∧ (de_instance_timeout (.bool false) = .ok none)
  ∧ (de_instance_timeout (.bool true) =
      .error (.invalidValue (.bool true) "a non-negative integer or false"))
  ∧ (n < 0 ∨ 4294967296 ≤ n →
      de_instance_timeout (.int n) =
        .error (.custom "invalid type: expected a non-negative integer or false"))
  ∧ ((∀ b, v ≠ .bool b) → (∀ m, v ≠ .int m) →
      de_instance_timeout v =
        .error (.custom "invalid type: expected a non-negative integer or false")) := by
  refine ⟨?_, rfl, rfl, ?_, ?_⟩
  · intro h1 h2
    simp [de_instance_timeout, deOneOf, deBool, deU32, h1, h2]
  · intro h
    have hc : ¬(0 ≤ n ∧ n < 4294967296) := by omega
    simp [de_instance_timeout, deOneOf, deBool, deU32, hc]
  · intro hb hi
    cases v with
    | bool b => exact absurd rfl (hb b)
    | int m => exact absurd rfl (hi m)
    | float => rfl
    | str s => rfl
    | array xs => rfl
    | table kvs => rfl

/-- Witness for C1: concrete evaluations through the theorem. -/
theorem instance_timeout_field_rule_witness :
    de_instance_timeout (.int 42) = .ok (some 42) ∧
    de_instance_timeout (.str "x") =
      .error (.custom "invalid type: expected a non-negative integer or false") ∧
    de_instance_timeout (.int (-3)) =
      .error (.custom "invalid type: expected a non-negative integer or false") :=
  ⟨(instance_timeout_field_rule 42 (.str "x")).1 (by decide) (by decide),
   (instance_timeout_field_rule 42 (.str "x")).2.2.2.2
     (fun _ h => Toml.noConfusion h) (fun _ h => Toml.noConfusion h),
   (instance_timeout_field_rule (-3) (.str "x")).2.2.2.1 (Or.inl (by decide))⟩

/-- C1 counterexample: the TOML integer `4294967296` is a non-negative
integer, yet it does not deserialize to a present timeout — the `u32` range
check rejects it with the generic expected-shape message. -/
theorem instance_timeout_overflow_counterexample :
    de_instance_timeout (.int 4294967296) =
      .error (.custom "invalid type: expected a non-negative integer or false") ∧
    de_instance_timeout (.int 4294967296) ≠ .ok (some 4294967296) := by
  exact ⟨by decide, by decide⟩

/-- C7 (amended): for the `gc_interval` field, the value `0` is rejected
with an `invalid_value` error expecting "an integer 1 or greater"; every
integer in `[1, 2^32)` is accepted unchanged; integers outside `[0, 2^32)`
— the amendment the counterexample forces — are rejected by the `u32` range
check; and a non-integer value is rejected. -/
theorem gc_interval_field_rule (n : Int) (v : Toml) :
    (de_gc_interval (.int 0) =
      .error (.invalidValue (.unsigned 0) "an integer 1 or greater"))
  ∧ (1 ≤ n → n < 4294967296 → de_gc_interval (.int n) = .ok n.toNat)
  ∧ (n < 0 ∨ 4294967296 ≤ n →
      de_gc_interval (.int n) = .error (.invalidValue (.signed n) "u32"))
  ∧ ((∀ m, v ≠ .int m) → ∃ e, de_gc_interval v = .error e) := by
  refine ⟨rfl, ?_, ?_, ?_⟩
  · intro h1 h2
    have h0 : (0 : Int) ≤ n := by omega
    obtain ⟨m, hm⟩ : ∃ m, n.toNat = m + 1 := ⟨n.toNat - 1, by omega⟩
    simp [de_gc_interval, deU32, h0, h2, hm]
  · intro h
    have hc : ¬(0 ≤ n ∧ n < 4294967296) := by omega
    simp [de_gc_interval, deU32, hc]
  · intro hi
    cases v with
    | int m => exact absurd rfl (hi m)
    | bool b => exact ⟨_, rfl⟩
    | float => exact ⟨_, rfl⟩
    | str s => exact ⟨_, rfl⟩
    | array xs => exact ⟨_, rfl⟩
    | table kvs => exact ⟨_, rfl⟩

/-- Witness for C7: concrete evaluations through the theorem. -/
theorem gc_interval_field_rule_witness :
    de_gc_interval (.int 5) = .ok 5 ∧
    (∃ e, de_gc_interval (.str "x") = .error e) :=
  ⟨(gc_interval_field_rule 5 (.str "x")).2.1 (by decide) (by decide),
   (gc_interval_field_rule 5 (.str "x")).2.2.2 (fun _ h => Toml.noConfusion h)⟩

/-- C7 counterexample: the TOML integer `4294967296` is at least 1, yet it
is not accepted — the `u32` range check rejects it. -/
theorem gc_interval_overflow_counterexample :
    de_gc_interval (.int 4294967296) =
      .error (.invalidValue (.signed 4294967296) "u32") ∧
    de_gc_interval (.int 4294967296) ≠ .ok 4294967296 := by
  exact ⟨by decide, by decide⟩

/-- Helper: one run of `init_file_writter` opens the log file for append
exactly once, whatever the observed metadata. -/
theorem init_file_writter_opens_once (meta : Option Metadata) :
    ((init_file_writter meta).2).count .openAppend = 1 := by
  unfold init_file_writter
  cases meta with
  | none => decide
  | some a =>
    cases h : a.is_file && decide (1048576 ≤ a.len) <;> simp [h]

/-- C3: when the log file exists as a file of size at least 1,048,576 bytes,
`init_file_writter` deletes it before creating the parent directories and
opening for append; when its size is strictly below the threshold, it is
not deleted and the file is opened for append after the parent directories
are created. -/
theorem file_writter_rotation (a : Metadata) :
    (a.is_file = true → 1048576 ≤ a.len →
      (init_file_writter (some a)).2 = [.removeFile, .createDirAll, .openAppend])
  ∧ (a.len < 1048576 →
      (init_file_writter (some a)).2 = [.createDirAll, .openAppend] ∧
      FsAction.removeFile ∉ (init_file_writter (some a)).2) := by
  constructor
  · intro h1 h2
    simp [init_file_writter, h1, h2]
  · intro h
    have hc : ¬(1048576 ≤ a.len) := by omega
    simp [init_file_writter, hc]

/-- Witness for C3: a 1 MiB file is rotated, a smaller one is appended to. -/
theorem file_writter_rotation_witness :
    (init_file_writter (some ⟨true, 1048576⟩)).2 =
      [.removeFile, .createDirAll, .openAppend] ∧
    ((init_file_writter (some ⟨true, 1048575⟩)).2 = [.createDirAll, .openAppend] ∧
      FsAction.removeFile ∉ (init_file_writter (some ⟨true, 1048575⟩)).2) :=
  ⟨(file_writter_rotation ⟨true, 1048576⟩).1 rfl (by decide),
   (file_writter_rotation ⟨true, 1048575⟩).2 (by decide)⟩

/-- C4: `init_file_logger` is idempotent over the `FILE_LOGGER` once-cell.
Starting from the empty cell, the first call initializes the writer; a
second call — with any filter environment, configuration and metadata —
performs no filesystem action at all, keeps the cached writer, and across
the two calls the file is opened (and the rotation decision taken) exactly
once. -/
theorem file_logger_idempotent (valid valid2 : String → Bool)
    (envVar envVar2 : Option String) (c c2 : Config) (meta meta2 : Option Metadata) :
    (init_file_logger valid2 envVar2 c2
        (init_file_logger valid envVar c none meta).cell meta2).actions = [] ∧
    (init_file_logger valid2 envVar2 c2
        (init_file_logger valid envVar c none meta).cell meta2).cell =
      (init_file_logger valid envVar c none meta).cell ∧
    ((init_file_logger valid envVar c none meta).actions ++
      (init_file_logger valid2 envVar2 c2
        (init_file_logger valid envVar c none meta).cell meta2).actions).count
        .openAppend = 1 := by
  refine ⟨rfl, rfl, ?_⟩
  show ((init_file_writter meta).2 ++ []).count FsAction.openAppend = 1
  rw [List.append_nil]
  exact init_file_writter_opens_once meta

/-- C5: both backends resolve the same filter, by the three-tier precedence:
a set and valid environment override wins; otherwise a valid configured
`log_filters` is used; otherwise the hard-coded `"info"`.  Resolution is a
total function — an invalid configured filter degrades to the fallback
instead of erroring. -/
theorem filter_resolution_three_tier (valid : String → Bool) (envVar : Option String)
    (c : Config) (cell : Option Log) (meta : Option Metadata) :
    ((init_terminal_logger valid envVar c).filter =
      resolveFilter valid envVar c.log_filters)
  ∧ ((init_file_logger valid envVar c cell meta).filter =
      resolveFilter valid envVar c.log_filters)
  ∧ (∀ e, envVar = some e → valid e = true →
      resolveFilter valid envVar c.log_filters = e)
  ∧ ((envVar = none ∨ ∃ e, envVar = some e ∧ valid e = false) →
      valid c.log_filters = true →
      resolveFilter valid envVar c.log_filters = c.log_filters)
  ∧ ((envVar = none ∨ ∃ e, envVar = some e ∧ valid e = false) →
      valid c.log_filters = false →
      resolveFilter valid envVar c.log_filters = "info") := by
  refine ⟨rfl, ?_, ?_, ?_, ?_⟩
  · cases cell <;> rfl
  · intro e he hv
    subst he
    simp [resolveFilter, tryFromDefaultEnv, hv]
  · intro h hlf
    rcases h with h | ⟨e, he, hv⟩
    · subst h
      simp [resolveFilter, tryFromDefaultEnv, tryNew, hlf]
    · subst he
      simp [resolveFilter, tryFromDefaultEnv, tryNew, hv, hlf]
  · intro h hlf
    rcases h with h | ⟨e, he, hv⟩
    · subst h
      simp [resolveFilter, tryFromDefaultEnv, tryNew, hlf]
    · subst he
      simp [resolveFilter, tryFromDefaultEnv, tryNew, hv, hlf]

/-- Witness for C5: the three tiers at concrete inputs, through the
theorem. -/
theorem filter_resolution_three_tier_witness :
    resolveFilter (fun s => s == "warn") (some "warn") "x" = "warn" ∧
    resolveFilter (fun s => s == "warn") (some "bad") "warn" = "warn" ∧
    resolveFilter (fun s => s == "warn") none "bad" = "info" :=
  ⟨(filter_resolution_three_tier (fun s => s == "warn") (some "warn")
      ⟨none, 1, default.listen, default.listen, "x", "terminal", []⟩ none none).2.2.1
      "warn" rfl (by decide),
   (filter_resolution_three_tier (fun s => s == "warn") (some "bad")
      ⟨none, 1, default.listen, default.listen, "warn", "terminal", []⟩ none none).2.2.2.1
      (Or.inr ⟨"bad", rfl, by decide⟩) (by decide),
   (filter_resolution_three_tier (fun s => s == "warn") none
      ⟨none, 1, default.listen, default.listen, "bad", "terminal", []⟩ none none).2.2.2.2
      (Or.inl rfl) (by decide)⟩

/-- C6: `init_logger` dispatches on `log_mode`: exactly the string `"file"`
selects the file backend; every other string selects the terminal backend,
with no validation error. -/
theorem log_mode_dispatch (c : Config) :
    (c.log_mode = "file" → init_logger_backend c = .file)
  ∧ (c.log_mode ≠ "file" → init_logger_backend c = .terminal) := by
  constructor
  · intro h
    simp [init_logger_backend, h]
  · intro h
    simp [init_logger_backend, h]

/-- Witness for C6: `"file"`, `"terminal"` and an unrecognized string. -/
theorem log_mode_dispatch_witness :
    init_logger_backend ⟨none, 1, default.listen, default.listen, "info", "file", []⟩ =
      .file ∧
    init_logger_backend Config.default = .terminal ∧
    init_logger_backend ⟨none, 1, default.listen, default.listen, "info", "banana", []⟩ =
      .terminal :=
  ⟨(log_mode_dispatch _).1 rfl,
   (log_mode_dispatch Config.default).2 (by decide),
   (log_mode_dispatch _).2 (by decide)⟩

/-- C10: on a platform with local-socket support, every bare string —
including one that textually resembles a network endpoint — deserializes as
the `Unix` (local-socket) variant, because the `Tcp` variant only matches a
two-element sequence; the no-variant-matched failure is unreachable for
string inputs. -/
theorem bare_string_is_unix_socket (s : String) :
    de_Address true (.str s) = .ok (.Unix s) ∧
    de_Address true (.str "127.0.0.1:27631") = .ok (.Unix "127.0.0.1:27631") :=
  ⟨rfl, rfl⟩

/-- Helper: success of the `Tcp` variant deserializer is exactly a match of
the spec's network shape, with the same address and port. -/
theorem deTcp_eq_networkShape (v : Toml) (r : IpAddr × Nat) :
    deTcp v = .ok r ↔ networkShape? v = some r := by
  cases v with
  | bool b => simp [deTcp, networkShape?]
  | int n => simp [deTcp, networkShape?]
  | float => simp [deTcp, networkShape?]
  | str s => simp [deTcp, networkShape?]
  | table kvs => simp [deTcp, networkShape?]
  | array xs =>
    rcases xs with _ | ⟨a, _ | ⟨b, _ | ⟨c, rest⟩⟩⟩
    · simp [deTcp, networkShape?]
    · simp [deTcp, networkShape?]
    · cases a with
      | str s =>
        cases b with
        | int n =>
          simp only [deTcp, networkShape?, deIpAddrT, deU16]
          cases hip : parseIpAddr s with
          | none => simp
          | some ip =>
            by_cases hn : 0 ≤ n ∧ n < 65536
            · simp [hn]
            · simp [hn]
        | bool bb =>
          simp only [deTcp, networkShape?, deIpAddrT, deU16]
          cases hip : parseIpAddr s <;> simp
        | float =>
          simp only [deTcp, networkShape?, deIpAddrT, deU16]
          cases hip : parseIpAddr s <;> simp
        | str s2 =>
          simp only [deTcp, networkShape?, deIpAddrT, deU16]
          cases hip : parseIpAddr s <;> simp
        | array ys =>
          simp only [deTcp, networkShape?, deIpAddrT, deU16]
          cases hip : parseIpAddr s <;> simp
        | table kvs =>
          simp only [deTcp, networkShape?, deIpAddrT, deU16]
          cases hip : parseIpAddr s <;> simp
      | bool bb => simp [deTcp, networkShape?, deIpAddrT]
      | int n => simp [deTcp, networkShape?, deIpAddrT]
      | float => simp [deTcp, networkShape?, deIpAddrT]
      | array ys => simp [deTcp, networkShape?, deIpAddrT]
      | table kvs => simp [deTcp, networkShape?, deIpAddrT]
    · simp [deTcp, networkShape?]

/-- Helper: a value that is not a bare string fails `PathBuf` deserialization. -/
theorem deUnixPath_fails_of_not_string (v : Toml) (h : localShape? v = none) :
    ∃ e, deUnixPath v = .error e := by
  cases v with
  | str s => simp [localShape?] at h
  | bool b => exact ⟨_, rfl⟩
  | int n => exact ⟨_, rfl⟩
  | float => exact ⟨_, rfl⟩
  | array xs => exact ⟨_, rfl⟩
  | table kvs => exact ⟨_, rfl⟩

/-- C2: untagged `Address` parsing is the ordered trial of the two shapes.
A value matching the network shape parses as `Tcp` with that address and
port; a value not matching it parses as `Unix` when it is a bare string and
the platform supports local sockets; when neither shape matches (or the
platform lacks local sockets), parsing fails with a type error.  No
discriminator is involved: serialization emits the bare content of the
variant, never a tag table. -/
theorem address_untagged_ordered_trial (u : Bool) (v : Toml) (d : IpAddr → String) :
    (∀ ip p, networkShape? v = some (ip, p) → de_Address u v = .ok (.Tcp ip p))
  ∧ (networkShape? v = none → ∀ s, localShape? v = some s → u = true →
      de_Address u v = .ok (.Unix s))
  ∧ (networkShape? v = none → (localShape? v = none ∨ u = false) →
      ∃ e, de_Address u v = .error e)
  ∧ (∀ a kvs, ser_Address d a ≠ .table kvs) := by
  refine ⟨?_, ?_, ?_, ?_⟩
  · intro ip p h
    have ht : deTcp v = .ok (ip, p) := (deTcp_eq_networkShape v (ip, p)).mpr h
    simp [de_Address, ht]
  · intro hn s hs hu
    subst hu
    cases v with
    | str s2 =>
      have hs2 : s2 = s := by simpa [localShape?] using hs
      subst hs2
      rfl
    | bool b => simp [localShape?] at hs
    | int n => simp [localShape?] at hs
    | float => simp [localShape?] at hs
    | array xs => simp [localShape?] at hs
    | table kvs => simp [localShape?] at hs
  · intro hn hl
    have ht : ∀ r, deTcp v ≠ .ok r := by
      intro r hr
      rw [(deTcp_eq_networkShape v r).mp hr] at hn
      exact Option.noConfusion hn
    obtain ⟨e, he⟩ : ∃ e, deTcp v = .error e := by
      cases hd : deTcp v with
      | ok r => exact absurd hd (ht r)
      | error e => exact ⟨e, rfl⟩
    rcases hl with hl | hl
    · obtain ⟨e2, he2⟩ := deUnixPath_fails_of_not_string v hl
      cases u with
      | true =>
        exact ⟨.custom "data did not match any variant of untagged enum Address",
          by simp [de_Address, he, he2]⟩
      | false =>
        exact ⟨.custom "data did not match any variant of untagged enum Address",
          by simp [de_Address, he]⟩
    · subst hl
      exact ⟨.custom "data did not match any variant of untagged enum Address",
        by simp [de_Address, he]⟩
  · intro a kvs
    cases a with
    | Tcp ip p => simp [ser_Address]
    | Unix s => simp [ser_Address]

/-- Witness for C2: each branch of the ordered trial at a concrete input,
through the theorem. -/
theorem address_untagged_ordered_trial_witness :
    de_Address true (.array [.str "127.0.0.1", .int 27631]) =
      .ok (.Tcp (.V4 127 0 0 1) 27631) ∧
    de_Address true (.str "/tmp/ra.sock") = .ok (.Unix "/tmp/ra.sock") ∧
    (∃ e, de_Address true (.int 3) = .error e) ∧
    (∃ e, de_Address false (.str "/tmp/ra.sock") = .error e) :=
  ⟨(address_untagged_ordered_trial true (.array [.str "127.0.0.1", .int 27631])
      (fun _ => "")).1 (.V4 127 0 0 1) 27631 (by decide),
   (address_untagged_ordered_trial true (.str "/tmp/ra.sock") (fun _ => "")).2.1
      (by decide) "/tmp/ra.sock" rfl rfl,
   (address_untagged_ordered_trial true (.int 3) (fun _ => "")).2.2.1
      (by decide) (Or.inl rfl),
   (address_untagged_ordered_trial false (.str "/tmp/ra.sock") (fun _ => "")).2.2.1
      (by decide) (Or.inr rfl)⟩

/-- Helper: an unrecognized key makes the map-visitor step fail immediately
with `unknown_field`, naming the key, whatever the partial state. -/
theorem applyField_unknown (u : Bool) (p : PartialConfig) (k : String) (v : Toml)
    (hk : k ∉ fieldNames) : applyField u p k v = .error (.unknownField k) := by
  simp only [fieldNames, List.mem_cons, List.not_mem_nil, or_false, not_or] at hk
  obtain ⟨h1, h2, h3, h4, h5, h6, h7⟩ := hk
  simp [applyField, h1, h2, h3, h4, h5, h6, h7]

/-- Helper: a successful map-visitor step for key `k` leaves the slot of
every other field unchanged. -/
theorem applyField_ok_preserves (u : Bool) (p p' : PartialConfig) (k : String)
    (v : Toml) (h : applyField u p k v = .ok p') :
    (k ≠ "instance_timeout" → p'.instance_timeout = p.instance_timeout)
  ∧ (k ≠ "gc_interval" → p'.gc_interval = p.gc_interval)
  ∧ (k ≠ "listen" → p'.listen = p.listen)
  ∧ (k ≠ "connect" → p'.connect = p.connect)
  ∧ (k ≠ "log_filters" → p'.log_filters = p.log_filters)
  ∧ (k ≠ "log_mode" → p'.log_mode = p.log_mode)
  ∧ (k ≠ "pass_environment" → p'.pass_environment = p.pass_environment) := by
  unfold applyField at h
  split_ifs at h
  all_goals
    split at h
    · exact Except.noConfusion h
    · injection h with h2
      subst h2
      refine ⟨?_, ?_, ?_, ?_, ?_, ?_, ?_⟩ <;> intro hne <;> simp_all

/-- Helper: a successful map-visitor step for key `k` keeps every other
key's slot-emptiness unchanged. -/
theorem unsetIn_preserved (u : Bool) (p p' : PartialConfig) (k k' : String)
    (v : Toml) (hne : k' ≠ k) (h : applyField u p k v = .ok p') :
    unsetIn p' k' = unsetIn p k' := by
  obtain ⟨h1, h2, h3, h4, h5, h6, h7⟩ := applyField_ok_preserves u p p' k v h
  unfold unsetIn
  split_ifs with a1 a2 a3 a4 a5 a6 a7
  · rw [h1 fun hh => hne (a1.trans hh.symm)]
  · rw [h2 fun hh => hne (a2.trans hh.symm)]
  · rw [h3 fun hh => hne (a3.trans hh.symm)]
  · rw [h4 fun hh => hne (a4.trans hh.symm)]
  · rw [h5 fun hh => hne (a5.trans hh.symm)]
  · rw [h6 fun hh => hne (a6.trans hh.symm)]
  · rw [h7 fun hh => hne (a7.trans hh.symm)]
  · rfl

/-- Helper: every slot of the initial partial record is unset. -/
theorem unsetIn_empty (k : String) : unsetIn PartialConfig.empty k = true := by
  unfold unsetIn PartialConfig.empty
  split_ifs <;> rfl

/-- Helper: a recognized key whose value its field deserializer accepts, and
whose slot is still unset, makes the map-visitor step succeed. -/
theorem applyField_known_ok (u : Bool) (p : PartialConfig) (k : String) (v : Toml)
    (hk : k ∈ fieldNames) (hok : fieldOk u k v = true) (hunset : unsetIn p k = true) :
    ∃ p', applyField u p k v = .ok p' := by
  simp only [fieldNames, List.mem_cons, List.not_mem_nil, or_false] at hk
  rcases hk with hk | hk | hk | hk | hk | hk | hk <;> subst hk
  · cases hde : de_instance_timeout v with
    | error e => simp [fieldOk, hde, Except.toBool] at hok
    | ok x =>
      simp [unsetIn, Option.isNone_iff_eq_none] at hunset
      exact ⟨{ p with instance_timeout := some x }, by simp [applyField, hunset, hde]⟩
  · cases hde : de_gc_interval v with
    | error e => simp [fieldOk, hde, Except.toBool] at hok
    | ok x =>
      simp [unsetIn, Option.isNone_iff_eq_none] at hunset
      exact ⟨{ p with gc_interval := some x }, by simp [applyField, hunset, hde]⟩
  · cases hde : de_Address u v with
    | error e => simp [fieldOk, hde, Except.toBool] at hok
    | ok x =>
      simp [unsetIn, Option.isNone_iff_eq_none] at hunset
      exact ⟨{ p with listen := some x }, by simp [applyField, hunset, hde]⟩
  · cases hde : de_Address u v with
    | error e => simp [fieldOk, hde, Except.toBool] at hok
    | ok x =>
      simp [unsetIn, Option.isNone_iff_eq_none] at hunset
      exact ⟨{ p with connect := some x }, by simp [applyField, hunset, hde]⟩
  · cases hde : deString v with
    | error e => simp [fieldOk, hde, Except.toBool] at hok
    | ok x =>
      simp [unsetIn, Option.isNone_iff_eq_none] at hunset
      exact ⟨{ p with log_filters := some x }, by simp [applyField, hunset, hde]⟩
  · cases hde : deString v with
    | error e => simp [fieldOk, hde, Except.toBool] at hok
    | ok x =>
      simp [unsetIn, Option.isNone_iff_eq_none] at hunset
      exact ⟨{ p with log_mode := some x }, by simp [applyField, hunset, hde]⟩
  · cases hde : dePassEnvironment v with
    | error e => simp [fieldOk, hde, Except.toBool] at hok
    | ok x =>
      simp [unsetIn, Option.isNone_iff_eq_none] at hunset
      exact ⟨{ p with pass_environment := some x }, by simp [applyField, hunset, hde]⟩

/-- Helper: a document containing an unrecognized key never deserializes
successfully, whatever the values of its fields and whatever partial state
the visitor starts from. -/
theorem deConfigLoop_error_of_unknown (u : Bool) :
    ∀ (kvs : List (String × Toml)) (p : PartialConfig),
      (∃ q ∈ kvs, q.1 ∉ fieldNames) →
      ∃ e, deConfigLoop u kvs p = .error e := by
  intro kvs
  induction kvs with
  | nil =>
    intro p h
    simp at h
  | cons head rest ih =>
    intro p hex
    obtain ⟨k, v⟩ := head
    by_cases hk : k ∈ fieldNames
    · have hrest : ∃ q ∈ rest, q.1 ∉ fieldNames := by
        rcases hex with ⟨q, hq, hqn⟩
        rcases List.mem_cons.mp hq with rfl | hq
        · exact absurd hk hqn
        · exact ⟨q, hq, hqn⟩
      cases ha : applyField u p k v with
      | error e => exact ⟨e, by simp [deConfigLoop, ha]⟩
      | ok p' =>
        obtain ⟨e, he⟩ := ih p' hrest
        exact ⟨e, by simp [deConfigLoop, ha, he]⟩
    · exact ⟨.unknownField k, by simp [deConfigLoop, applyField_unknown u p k v hk]⟩

/-- Helper: when in addition all recognized keys carry values their field
deserializers accept and no key repeats, the failure is the
`unknown_field` error, naming an unrecognized key of the document. -/
theorem deConfigLoop_unknownField (u : Bool) :
    ∀ (kvs : List (String × Toml)) (p : PartialConfig),
      (∀ q ∈ kvs, q.1 ∈ fieldNames → fieldOk u q.1 q.2 = true ∧ unsetIn p q.1 = true) →
      (kvs.map Prod.fst).Nodup →
      (∃ q ∈ kvs, q.1 ∉ fieldNames) →
      ∃ k2, k2 ∉ fieldNames ∧ deConfigLoop u kvs p = .error (.unknownField k2) := by
  intro kvs
  induction kvs with
  | nil =>
    intro p _ _ h
    simp at h
  | cons head rest ih =>
    intro p hvalid hnodup hex
    obtain ⟨k, v⟩ := head
    by_cases hk : k ∈ fieldNames
    · obtain ⟨hok, hunset⟩ := hvalid (k, v) (List.mem_cons_self _ _) hk
      obtain ⟨p', hp'⟩ := applyField_known_ok u p k v hk hok hunset
      have hrest : ∃ q ∈ rest, q.1 ∉ fieldNames := by
        rcases hex with ⟨q, hq, hqn⟩
        rcases List.mem_cons.mp hq with rfl | hq
        · exact absurd hk hqn
        · exact ⟨q, hq, hqn⟩
      have hmap : ((k, v) :: rest).map Prod.fst = k :: rest.map Prod.fst := rfl
      rw [hmap, List.nodup_cons] at hnodup
      have hvalid' : ∀ q ∈ rest, q.1 ∈ fieldNames →
          fieldOk u q.1 q.2 = true ∧ unsetIn p' q.1 = true := by
        intro q hq hqf
        obtain ⟨h1, h2⟩ := hvalid q (List.mem_cons_of_mem _ hq) hqf
        refine ⟨h1, ?_⟩
        have hqk : q.1 ≠ k := by
          intro hh
          exact hnodup.1 (hh ▸ List.mem_map_of_mem Prod.fst hq)
        rw [unsetIn_preserved u p p' k q.1 v hqk hp']
        exact h2
      obtain ⟨k2, hk2, he⟩ := ih p' hvalid' hnodup.2 hrest
      exact ⟨k2, hk2, by simp [deConfigLoop, hp', he]⟩
    · exact ⟨k, hk, by simp [deConfigLoop, applyField_unknown u p k v hk]⟩

/-- C8 (amended): a document containing an unrecognized top-level field name
always fails to load, regardless of the other fields; when, in addition,
every recognized field carries a valid value and no field repeats — the
amendment the counterexample forces, since an invalid recognized field
occurring earlier is reported instead — the error is `unknown_field`,
naming an unrecognized key. -/
theorem config_unknown_field_rejected (u : Bool) (kvs : List (String × Toml))
    (hex : ∃ q ∈ kvs, q.1 ∉ fieldNames) :
    (∃ e, de_Config u kvs = .error e)
  ∧ ((∀ q ∈ kvs, q.1 ∈ fieldNames → fieldOk u q.1 q.2 = true) →
      (kvs.map Prod.fst).Nodup →
      ∃ k, k ∉ fieldNames ∧ de_Config u kvs = .error (.unknownField k)) := by
  constructor
  · exact deConfigLoop_error_of_unknown u kvs PartialConfig.empty hex
  · intro hvalid hnodup
    refine deConfigLoop_unknownField u kvs PartialConfig.empty ?_ hnodup hex
    intro q hq hqf
    exact ⟨hvalid q hq hqf, unsetIn_empty q.1⟩

/-- Witness for C8: a document with one valid field and one bogus field,
through the theorem. -/
theorem config_unknown_field_rejected_witness :
    (∃ e, de_Config true [("log_mode", Toml.str "file"), ("bogus", Toml.int 1)] =
      .error e) ∧
    (∃ k, k ∉ fieldNames ∧
      de_Config true [("log_mode", Toml.str "file"), ("bogus", Toml.int 1)] =
        .error (.unknownField k)) :=
  ⟨(config_unknown_field_rejected true
      [("log_mode", Toml.str "file"), ("bogus", Toml.int 1)]
      ⟨("bogus", Toml.int 1), by simp, by decide⟩).1,
   (config_unknown_field_rejected true
      [("log_mode", Toml.str "file"), ("bogus", Toml.int 1)]
      ⟨("bogus", Toml.int 1), by simp, by decide⟩).2 (by decide) (by decide)⟩

/-- C8 counterexample: in a document whose `gc_interval` field is invalid
and which also contains the unrecognized key `bogus`, the load fails with
the `gc_interval` validation error — the parse error does not name the
unrecognized key. -/
theorem config_unknown_field_counterexample :
    de_Config true [("gc_interval", Toml.int 0), ("bogus", Toml.int 1)] =
      .error (.invalidValue (.unsigned 0) "an integer 1 or greater") ∧
    de_Config true [("gc_interval", Toml.int 0), ("bogus", Toml.int 1)] ≠
      .error (.unknownField "bogus") := by
  exact ⟨by decide, by decide⟩

/-- Helper: in a successfully parsed document, every field whose key never
occurs keeps the value of its slot at the start of the visit (its default,
when the visit starts from the empty partial record). -/
theorem deConfigLoop_absent_defaults (u : Bool) :
    ∀ (kvs : List (String × Toml)) (p : PartialConfig) (c : Config),
      deConfigLoop u kvs p = .ok c →
      ("instance_timeout" ∉ kvs.map Prod.fst →
        c.instance_timeout = p.instance_timeout.getD default.instance_timeout)
    ∧ ("gc_interval" ∉ kvs.map Prod.fst →
        c.gc_interval = p.gc_interval.getD default.gc_interval)
    ∧ ("listen" ∉ kvs.map Prod.fst → c.listen = p.listen.getD default.listen)
    ∧ ("connect" ∉ kvs.map Prod.fst → c.connect = p.connect.getD default.connect)
    ∧ ("log_filters" ∉ kvs.map Prod.fst →
        c.log_filters = p.log_filters.getD default.log_filters)
    ∧ ("log_mode" ∉ kvs.map Prod.fst → c.log_mode = p.log_mode.getD default.log_mode)
    ∧ ("pass_environment" ∉ kvs.map Prod.fst →
        c.pass_environment = p.pass_environment.getD default.pass_environment) := by
  intro kvs
  induction kvs with
  | nil =>
    intro p c h
    injection h with h
    subst h
    exact ⟨fun _ => rfl, fun _ => rfl, fun _ => rfl, fun _ => rfl,
      fun _ => rfl, fun _ => rfl, fun _ => rfl⟩
  | cons head rest ih =>
    intro p c h
    obtain ⟨k, v⟩ := head
    cases ha : applyField u p k v with
    | error e =>
      rw [deConfigLoop, ha] at h
      exact Except.noConfusion h
    | ok p' =>
      rw [deConfigLoop, ha] at h
      obtain ⟨g1, g2, g3, g4, g5, g6, g7⟩ := applyField_ok_preserves u p p' k v ha
      obtain ⟨i1, i2, i3, i4, i5, i6, i7⟩ := ih p' c h
      refine ⟨?_, ?_, ?_, ?_, ?_, ?_, ?_⟩ <;>
        intro habs <;>
        rw [List.map_cons, List.mem_cons, not_or] at habs
      · rw [i1 habs.2, g1 (Ne.symm habs.1)]
      · rw [i2 habs.2, g2 (Ne.symm habs.1)]
      · rw [i3 habs.2, g3 (Ne.symm habs.1)]
      · rw [i4 habs.2, g4 (Ne.symm habs.1)]
      · rw [i5 habs.2, g5 (Ne.symm habs.1)]
      · rw [i6 habs.2, g6 (Ne.symm habs.1)]
      · rw [i7 habs.2, g7 (Ne.symm habs.1)]

/-- C9: the default configuration has exactly the specified field values —
timeout present at 300 seconds, `gc_interval` 10, listen TCP 127.0.0.1 port
27631, connect equal to the listen default, `log_filters` `"info"`,
`log_mode` `"terminal"`, empty `pass_environment` — each produced by a pure
`default::` function of no input; an empty document parses to exactly this
record, and in any successfully parsed document every absent field takes
its default. -/
theorem config_defaults (u : Bool) (kvs : List (String × Toml)) (c : Config) :
    (Config.default).instance_timeout = some 300
  ∧ (Config.default).gc_interval = 10
  ∧ (Config.default).listen = .Tcp (.V4 127 0 0 1) 27631
  ∧ (Config.default).connect = default.listen
  ∧ (Config.default).log_filters = "info"
  ∧ (Config.default).log_mode = "terminal"
  ∧ (Config.default).pass_environment = []
  ∧ de_Config u [] = .ok Config.default
  ∧ (de_Config u kvs = .ok c →
      ("instance_timeout" ∉ kvs.map Prod.fst → c.instance_timeout = some 300)
    ∧ ("gc_interval" ∉ kvs.map Prod.fst → c.gc_interval = 10)
    ∧ ("listen" ∉ kvs.map Prod.fst → c.listen = .Tcp (.V4 127 0 0 1) 27631)
    ∧ ("connect" ∉ kvs.map Prod.fst → c.connect = default.listen)
    ∧ ("log_filters" ∉ kvs.map Prod.fst → c.log_filters = "info")
    ∧ ("log_mode" ∉ kvs.map Prod.fst → c.log_mode = "terminal")
    ∧ ("pass_environment" ∉ kvs.map Prod.fst → c.pass_environment = [])) := by
  refine ⟨rfl, rfl, rfl, rfl, rfl, rfl, rfl, rfl, ?_⟩
  intro h
  exact deConfigLoop_absent_defaults u kvs PartialConfig.empty c h

/-- Witness for C9: a document that sets only `gc_interval` leaves every
other field at its default, through the theorem. -/
theorem config_defaults_witness :
    de_Config true [] = .ok Config.default ∧
    (⟨some 300, 3, default.listen, default.listen, "info", "terminal", []⟩ :
      Config).instance_timeout = some 300 ∧
    (⟨some 300, 3, default.listen, default.listen, "info", "terminal", []⟩ :
      Config).log_mode = "terminal" :=
  ⟨(config_defaults true [] Config.default).2.2.2.2.2.2.2.1,
   ((config_defaults true [("gc_interval", Toml.int 3)]
      ⟨some 300, 3, default.listen, default.listen, "info", "terminal", []⟩
      ).2.2.2.2.2.2.2.2 (by decide)).1 (by decide),
   ((config_defaults true [("gc_interval", Toml.int 3)]
      ⟨some 300, 3, default.listen, default.listen, "info", "terminal", []⟩
      ).2.2.2.2.2.2.2.2 (by decide)).2.2.2.2.2.1 (by decide)⟩
